import Mathlib

/-!
Verification of the Interview Practice Partner repository.

This file shallowly embeds the deterministic parts of the repository:
the rule-based scoring engine (`app/feedback_engine.py`, functions
`simple_scores` and `scores_to_feedback`) and the conversational state
machine of `app/interview_agent.py` (`detect_agentic_case`,
`InterviewAgent.is_end_command`, `InterviewAgent._generate_ai_followup`,
`InterviewAgent._generate_ai_feedback`, `InterviewAgent.get_next_question`,
`InterviewAgent.process_answer`).

Strings are modelled as `List Char` internally (via `String.toList`);
Python string helpers (`strip`, `lower`, `split`, substring membership,
`startswith`) are re-implemented on character lists.  The external text
generation collaborator (`llm_clients.groq_generate`) is a black box: each
call site takes the outcome of that one call as an explicit
`Except String String` argument (`.error e` models a raised exception,
`.ok t` models returned text), and availability (`llm_clients.groq_enabled`)
is an explicit `Bool` argument.  Stateful methods take the `InterviewAgent`
state explicitly and return the updated state; a method that raises returns
`Except.error` together with the state as mutated up to the raise point,
matching Python semantics.
-/

namespace InterviewPractice

/-- Python whitespace characters relevant to `str.strip` / `str.split` /
`re.split (backslash s +)` on ASCII text. -/
def isSpaceChar (c : Char) : Bool :=
  c = ' ' || c = '\t' || c = '\n' || c = '\r' || c = '\x0b' || c = '\x0c'

/-- Python `str.strip()` with no arguments: drop whitespace from both ends. -/
def pyTrim (cs : List Char) : List Char :=
  ((cs.dropWhile isSpaceChar).reverse.dropWhile isSpaceChar).reverse

/-- Python `str.lower()` (ASCII case mapping, which covers every string the
program compares). -/
def pyLower (cs : List Char) : List Char := cs.map Char.toLower

/-- Python `str.split()` with no arguments, and also
`[t for t in re.split(r"backslash s+", s) if t]`: split on whitespace runs and
drop empty pieces. -/
def pyWords (cs : List Char) : List (List Char) :=
  (cs.splitOnP isSpaceChar).filter (fun t => !t.isEmpty)

/-- Python `needle in hay` for strings: contiguous substring test. -/
def containsSub (needle : List Char) : List Char → Bool
  | [] => needle.isEmpty
  | c :: t => needle.isPrefixOf (c :: t) || containsSub needle t

/-- Python `s.strip(chars)`: drop characters satisfying `p` from both ends. -/
def pyStripBoth (p : Char → Bool) (cs : List Char) : List Char :=
  ((cs.dropWhile p).reverse.dropWhile p).reverse

/-- The punctuation set `".!?,"` used by `is_end_command`. -/
def isPunctChar (c : Char) : Bool :=
  c = '.' || c = '!' || c = '?' || c = ','

/-! ## ScoringEngine: `app/feedback_engine.py` -/

/-- Rubric configuration as consumed by `simple_scores` and
`scores_to_feedback`.  The Python code reads these values out of a JSON
dict with defaults (`thresholds.short_answer_tokens` default 12,
`thresholds.good_depth_matches` default 2, and the three message strings);
here the lookup-with-default is already resolved into plain fields. -/
structure Rubric where
  short_answer_tokens : Int
  good_depth_matches : Int
  depth_keywords : List String
  structure_tip : String
  detail_tip : String
  on_topic_tip : String

/-- The three scores returned by `simple_scores`. -/
structure Scores where
  communication : Int
  depth : Int
  relevance : Int
deriving DecidableEq

/-- `max(1, min(5, int(x)))` — the `clamp` helper inside `simple_scores`. -/
def clampScore (x : Int) : Int := max 1 (min 5 x)

/-- The communication branch of `simple_scores`
(`feedback_engine.py` lines 60-63). -/
def commScore (n short : Int) : Int :=
  if n ≥ short then (if n < 40 then 4 else 5)
  else (if n ≥ 5 then 2 else 1)

/-- The depth branch of `simple_scores` (`feedback_engine.py` lines 69-76). -/
def depthScore (m good : Int) : Int :=
  if m ≥ good + 2 then 5
  else if m ≥ good then 4
  else if m ≥ 1 then 3
  else 1

/-- The relevance branch of `simple_scores`
(`feedback_engine.py` lines 79-83): baseline 3, downgraded to 2 for short
answers, then `min(5, relevance + 1)` when at least one keyword matched. -/
def relevanceScore (n short m : Int) : Int :=
  let rel1 : Int := if n < short then 2 else 3
  if m ≥ 1 then min 5 (rel1 + 1) else rel1

/-- `sum(1 for kw in depth_keywords if kw.lower() in answer.lower())`
(`feedback_engine.py` line 67). -/
def countMatches (answer : List Char) (kws : List String) : Nat :=
  (kws.filter (fun kw => containsSub (pyLower kw.toList) (pyLower answer))).length

/-- `feedback_engine.simple_scores(answer, rubric)`. -/
def simple_scores (answer : String) (rubric : Rubric) : Scores :=
  if (pyTrim answer.toList).isEmpty then ⟨1, 1, 1⟩
  else
    let n : Int := (pyWords (pyTrim answer.toList)).length
    let m : Int := countMatches answer.toList rubric.depth_keywords
    ⟨clampScore (commScore n rubric.short_answer_tokens),
     clampScore (depthScore m rubric.good_depth_matches),
     clampScore (relevanceScore n rubric.short_answer_tokens m)⟩

/-- `feedback_engine.scores_to_feedback(scores, rubric)`. -/
def scores_to_feedback (scores : Scores) (rubric : Rubric) : List String :=
  let b1 :=
    if scores.communication ≥ 4 then "Strong communication — clear and structured."
    else if scores.communication = 3 then
      "Good clarity; could benefit from slightly more structure (use STAR method)."
    else rubric.structure_tip
  let b2 :=
    if scores.depth ≥ 4 then "Good technical depth — strong use of concepts and trade-offs."
    else if scores.depth = 3 then
      "Some technical details present; add more specifics like components or metrics."
    else rubric.detail_tip
  let b3 :=
    if scores.relevance ≥ 4 then "Answer was highly relevant and on point."
    else if scores.relevance = 3 then
      "Mostly relevant — try tying each statement directly to the question."
    else rubric.on_topic_tip
  [b1, b2, b3]

/-- A rubric with the source defaults for thresholds and messages and the
depth keywords used by the repository smoke test. -/
def baseRubric : Rubric :=
  ⟨12, 2, ["caching", "indexing"],
   "Try structuring answers with STAR (Situation, Task, Action, Result).",
   "Add concrete technical details: components, trade-offs, and numbers.",
   "Keep answers focused on the asked problem; brief examples are fine."⟩

/-! ## InterviewAgent: `app/interview_agent.py` -/

/-- The persona-case labels returned by `detect_agentic_case`
("EMPTY" / "IDK" / "TOO_SHORT" / "CONFUSED" / "CHATTY" in the source). -/
inductive PersonaCase where
  | EMPTY
  | IDK
  | TOO_SHORT
  | CONFUSED
  | CHATTY
deriving DecidableEq

/-- The fixed IDK variant set of `detect_agentic_case` (line 29).  The
second entry uses the right single quotation mark U+2019 exactly as the
source does; the fourth uses the ASCII apostrophe. -/
def idkVariants : List (List Char) :=
  ["idk".toList, "i don’t know".toList, "i dont know".toList,
   "don\x27t know".toList, "dont know".toList, "no idea".toList]

/-- The confusion-signalling substrings of `detect_agentic_case`
(lines 34-36). -/
def confusedPhrases : List String :=
  ["help", "what do i do", "how does this work", "instructions", "explain",
   "lost", "don’t understand", "dont understand", "not sure", "confused"]

/-- The greeting phrases of `detect_agentic_case` (lines 40-42). -/
def chattyPhrases : List String :=
  ["hello", "hi", "what\x27s your name", "how are you", "good morning",
   "good afternoon", "good evening"]

/-- `a = (answer or "").strip().lower()` — the normalisation shared by
`detect_agentic_case` (line 26) and `is_end_command` (line 344). -/
def normAnswer (answer : String) : List Char :=
  pyLower (pyTrim answer.toList)

/-- `interview_agent.detect_agentic_case(answer)` (lines 24-45):
normalise, then the EMPTY / IDK / TOO_SHORT / CONFUSED / CHATTY checks in
order, first match winning. -/
def detect_agentic_case (answer : String) : Option PersonaCase :=
  if normAnswer answer = [] then some PersonaCase.EMPTY
  else if normAnswer answer ∈ idkVariants then some PersonaCase.IDK
  else if (pyWords (normAnswer answer)).length < 5 then some PersonaCase.TOO_SHORT
  else if confusedPhrases.any (fun p => containsSub p.toList (normAnswer answer)) then
    some PersonaCase.CONFUSED
  else if chattyPhrases.any
      (fun p => p.toList.isPrefixOf (normAnswer answer) || normAnswer answer = p.toList) then
    some PersonaCase.CHATTY
  else none

/-- The fixed end-phrase set of `InterviewAgent.is_end_command`
(lines 345-347). -/
def endPhrases : List (List Char) :=
  ["end".toList, "end interview".toList, "stop".toList,
   "stop interview".toList, "quit".toList, "exit".toList, "finish".toList,
   "finish interview".toList, "terminate".toList, "terminate interview".toList]

/-- `InterviewAgent.is_end_command(answer)` (lines 337-356).  Note that
`text.strip(".!?,")` removes the punctuation characters from BOTH ends of
the string. -/
def is_end_command (answer : String) : Bool :=
  if answer.isEmpty then false
  else if normAnswer answer ∈ endPhrases then true
  else if pyStripBoth isPunctChar (normAnswer answer) ∈ endPhrases then true
  else false

/-- The `persona_case_map` dict inside `process_answer` (lines 295-301). -/
def persona_case_map : PersonaCase → String
  | PersonaCase.EMPTY =>
      "Don\x27t worry, just give your best try—even a short answer helps!"
  | PersonaCase.IDK =>
      "It\x27s okay if you don\x27t know. Take a guess or try to explain your thinking!"
  | PersonaCase.TOO_SHORT =>
      "Could you add a bit more detail to your answer? You\x27ll get better feedback that way!"
  | PersonaCase.CONFUSED =>
      "Just answer as best you can—there\x27s no penalty for mistakes!"
  | PersonaCase.CHATTY =>
      "Let\x27s focus on the interview questions; practice will help you improve!"

/-- One entry of `InterviewAgent.history`: a dict
`{"role": ..., "text": ...}`. -/
structure HistoryEntry where
  role : String
  text : String
deriving DecidableEq

/-- The mutable fields of an `InterviewAgent` instance (lines 56-59).
`agentic_case_counter` is a dict read through `.get(case, 0)`, modelled as
a total function defaulting to 0. -/
structure AgentState where
  role : String
  history : List HistoryEntry
  followup_count : Nat
  agentic_case_counter : PersonaCase → Nat

/-- The state of a freshly constructed `InterviewAgent(role)` (the
constructor also requires `groq_enabled()`; that check does not touch
these fields). -/
def initState (role : String) : AgentState :=
  ⟨role, [], 0, fun _ => 0⟩

/-- The label strings stripped (case-insensitively) from a generated
follow-up (line 116). -/
def followupLabels : List String :=
  ["Follow-up:", "Follow-up question:", "Q:", "Question:"]

/-- The loop `for prefix in [...]` of `_generate_ai_followup`
(lines 116-118): each label is tested case-insensitively with
`startswith`, and on a hit the label-length slice is dropped and the rest
re-stripped. -/
def stripFollowupLabels (q : List Char) : List Char :=
  followupLabels.foldl
    (fun cur p =>
      if (pyLower p.toList).isPrefixOf (pyLower cur) then
        pyTrim (cur.drop p.toList.length)
      else cur)
    q

/-- `self.history.append(entry)`: append one entry to the session
history, other fields untouched. -/
def appendHistory (s : AgentState) (e : HistoryEntry) : AgentState :=
  ⟨s.role, s.history ++ [e], s.followup_count, s.agentic_case_counter⟩

/-- The successful tail of `_generate_ai_followup` (lines 121-122):
`self.followup_count += 1` followed by appending the follow-up to
history. -/
def recordFollowup (s : AgentState) (fu : String) : AgentState :=
  ⟨s.role, s.history ++ [⟨"interviewer", fu⟩], s.followup_count + 1,
   s.agentic_case_counter⟩

/-- The successful tail of `get_next_question` (lines 254-255):
`self.followup_count = 0` followed by appending the question to
history. -/
def recordMainQuestion (s : AgentState) (q : String) : AgentState :=
  ⟨s.role, s.history ++ [⟨"interviewer", q⟩], 0, s.agentic_case_counter⟩

/-- `InterviewAgent._generate_ai_followup(question, answer)`
(lines 61-128).  `gen` is the outcome of the single `groq_generate` call;
every exception inside the `try` block is caught and turns into
`(none, unchanged state)`.  The prompt built from `question`, `answer` and
the history only feeds the black-box generator, so it does not appear
beyond these arguments. -/
def generate_ai_followup (enabled : Bool) (gen : Except String String)
    (s : AgentState) (_question _answer : String) :
    Option String × AgentState :=
  if !enabled then (none, s)
  else if s.followup_count ≥ 2 then (none, s)
  else
    match gen with
    | Except.error _ => (none, s)
    | Except.ok raw =>
      if stripFollowupLabels (pyTrim raw.toList) ≠ [] ∧
          (stripFollowupLabels (pyTrim raw.toList)).length > 10 then
        (some (String.mk (stripFollowupLabels (pyTrim raw.toList))),
         recordFollowup s (String.mk (stripFollowupLabels (pyTrim raw.toList))))
      else (none, s)

/-- The bullet markers stripped from each feedback line (line 176). -/
def bulletMarkers : List String := ["-", "•", "*", "1.", "2.", "3.", "4.", "5."]

/-- The inner marker loop of `_generate_ai_feedback` (lines 176-178). -/
def stripBulletMarkers (line : List Char) : List Char :=
  bulletMarkers.foldl
    (fun cur m =>
      if m.toList.isPrefixOf cur then pyTrim (cur.drop m.toList.length)
      else cur)
    line

/-- The line loop of `_generate_ai_feedback` (lines 170-180): split on
newlines, strip each line, skip blanks, strip bullet markers, keep what is
left when non-blank. -/
def parseBullets (txt : List Char) : List (List Char) :=
  (txt.splitOnP (fun c => c = '\n')).foldr
    (fun rawLine acc =>
      let line := pyTrim rawLine
      if line.isEmpty then acc
      else
        let line := stripBulletMarkers line
        if line.isEmpty then acc else line :: acc)
    []

/-- `InterviewAgent._generate_ai_feedback(question, answer)`
(lines 130-194).  Raises (returns `.error`) when `groq_enabled()` is
false; any exception inside the `try` block — the `groq_generate` failure
or the explicit empty-result raise — is re-raised wrapped in
"Failed to generate AI feedback: ...".  There is no fallback. -/
def generate_ai_feedback (enabled : Bool) (gen : Except String String)
    (_question _answer : String) : Except String (List String) :=
  if !enabled then
    Except.error
      "Groq API is required for feedback generation. Please set GROQ_API_KEY in your .env file."
  else
    match gen with
    | Except.error e => Except.error ("Failed to generate AI feedback: " ++ e)
    | Except.ok raw =>
      let txt := pyTrim raw.toList
      let bullets := parseBullets txt
      let bullets := if bullets.isEmpty then
          (if !txt.isEmpty then [txt] else []) else bullets
      if bullets.isEmpty then
        Except.error
          "Failed to generate AI feedback: AI feedback generation returned empty result."
      else Except.ok ((bullets.take 5).map String.mk)

/-- The label strings stripped (case-sensitively) from a generated main
question (line 249). -/
def questionLabels : List String :=
  ["Question:", "Q:", "Here\x27s a question:", "Here\x27s the question:"]

/-- The loop `for prefix in [...]` of `get_next_question` (lines 249-251):
case-sensitive `startswith`. -/
def stripQuestionLabels (q : List Char) : List Char :=
  questionLabels.foldl
    (fun cur p =>
      if p.toList.isPrefixOf cur then pyTrim (cur.drop p.toList.length)
      else cur)
    q

/-- `InterviewAgent.get_next_question()` (lines 199-261).  Result is
`.ok (some q)` when a question was produced (state: `followup_count`
reset to 0, question appended to history), `.ok none` when the generated
text stripped to nothing (state unchanged), `.error` when the API is not
configured or the generation call raised (state unchanged). -/
def get_next_question (enabled : Bool) (gen : Except String String)
    (s : AgentState) : Except String (Option String) × AgentState :=
  if !enabled then
    (Except.error
      "Groq API is required for question generation. Please set GROQ_API_KEY in your .env file.",
     s)
  else
    match gen with
    | Except.error e => (Except.error ("Failed to generate question: " ++ e), s)
    | Except.ok raw =>
      if stripQuestionLabels (pyTrim raw.toList) ≠ [] then
        (Except.ok (some (String.mk (stripQuestionLabels (pyTrim raw.toList)))),
         recordMainQuestion s (String.mk (stripQuestionLabels (pyTrim raw.toList))))
      else (Except.ok none, s)

/-- The dict returned by `process_answer` ("history" holds
`self.history`; a missing "finished" key is modelled as `false`). -/
structure TurnResult where
  followup : Option String
  feedback : List String
  history : List HistoryEntry
  finished : Bool
deriving DecidableEq

/-- `self.agentic_case_counter[case] = self.agentic_case_counter.get(case, 0) + 1`
(line 305). -/
def bumpPersonaCounter (s : AgentState) (pc : PersonaCase) : AgentState :=
  ⟨s.role, s.history, s.followup_count,
   fun k => if k = pc then s.agentic_case_counter pc + 1 else s.agentic_case_counter k⟩

/-- The clarifying nudge for a persona case whose post-increment counter
value is `newCount`: the canned sentence, plus the escalation suffix for a
repeated CONFUSED/CHATTY case (lines 302-307). -/
def personaNudge (pc : PersonaCase) (newCount : Nat) : String :=
  if (pc = PersonaCase.CONFUSED ∨ pc = PersonaCase.CHATTY) ∧ newCount > 1 then
    persona_case_map pc ++ " (Try to give an answer to keep the practice going!)"
  else persona_case_map pc

/-- `InterviewAgent.process_answer(answer, question_text)`
(lines 266-334).  `genFeedback` / `genFollowup` are the outcomes of the
(at most) two `groq_generate` calls of the turn.  On the normal path the
feedback call comes first; when it raises, the exception propagates
(`.error`) with the candidate entry already appended to history. -/
def process_answer (enabled : Bool) (genFeedback genFollowup : Except String String)
    (s : AgentState) (answer question_text : String) :
    Except String TurnResult × AgentState :=
  if is_end_command answer then
    (Except.ok ⟨none, ["Interview ended at your request."],
      (appendHistory s ⟨"candidate", answer⟩).history, true⟩,
     appendHistory s ⟨"candidate", answer⟩)
  else
    match detect_agentic_case answer with
    | some pc =>
      (Except.ok
        ⟨some (personaNudge pc (s.agentic_case_counter pc + 1)),
         ["Provide a more complete answer to get valuable feedback!"],
         (bumpPersonaCounter (appendHistory s ⟨"candidate", answer⟩) pc).history, false⟩,
       bumpPersonaCounter (appendHistory s ⟨"candidate", answer⟩) pc)
    | none =>
      match generate_ai_feedback enabled genFeedback question_text answer with
      | Except.error e => (Except.error e, appendHistory s ⟨"candidate", answer⟩)
      | Except.ok fb =>
        (Except.ok
          ⟨(generate_ai_followup enabled genFollowup
              (appendHistory s ⟨"candidate", answer⟩) question_text answer).1, fb,
           (generate_ai_followup enabled genFollowup
              (appendHistory s ⟨"candidate", answer⟩) question_text answer).2.history, false⟩,
         (generate_ai_followup enabled genFollowup
            (appendHistory s ⟨"candidate", answer⟩) question_text answer).2)

/-- One UI-driven call on a session: either `process_answer` (with the
outcomes of its generation calls) or `get_next_question`. -/
inductive Op where
  | answerOp (enabled : Bool) (genFeedback genFollowup : Except String String)
      (answer question_text : String)
  | nextQuestionOp (enabled : Bool) (gen : Except String String)

/-- The session state after one operation (results discarded). -/
def stepState (s : AgentState) : Op → AgentState
  | Op.answerOp en gf gu a q => (process_answer en gf gu s a q).2
  | Op.nextQuestionOp en g => (get_next_question en g s).2

/-- An operation "successfully produces a new main question" exactly when
it is a `get_next_question` call returning `.ok (some q)`. -/
def producesMainQuestion (s : AgentState) : Op → Prop
  | Op.answerOp _ _ _ _ _ => False
  | Op.nextQuestionOp en g => ∃ q, (get_next_question en g s).1 = Except.ok (some q)

/-! ## Helper lemmas about the scoring engine -/

lemma simple_scores_communication (answer : String) (r : Rubric)
    (h : (pyTrim answer.toList).isEmpty = false) :
    (simple_scores answer r).communication =
      clampScore (commScore ((pyWords (pyTrim answer.toList)).length : Int)
        r.short_answer_tokens) := by
  unfold simple_scores
  rw [if_neg (fun hn => by rw [hn] at h; simp at h)]

lemma simple_scores_depth (answer : String) (r : Rubric)
    (h : (pyTrim answer.toList).isEmpty = false) :
    (simple_scores answer r).depth =
      clampScore (depthScore (countMatches answer.toList r.depth_keywords : Int)
        r.good_depth_matches) := by
  unfold simple_scores
  rw [if_neg (fun hn => by rw [hn] at h; simp at h)]

lemma simple_scores_relevance (answer : String) (r : Rubric)
    (h : (pyTrim answer.toList).isEmpty = false) :
    (simple_scores answer r).relevance =
      clampScore (relevanceScore ((pyWords (pyTrim answer.toList)).length : Int)
        r.short_answer_tokens (countMatches answer.toList r.depth_keywords : Int)) := by
  unfold simple_scores
  rw [if_neg (fun hn => by rw [hn] at h; simp at h)]

lemma relevanceScore_cases (n short m : Int) :
    relevanceScore n short m =
      if 1 ≤ m then (if n < short then 3 else 4)
      else (if n < short then 2 else 3) := by
  simp only [relevanceScore]
  split_ifs <;> decide

/-! ## Claim theorems for the scoring engine -/

/-- C3: for every non-empty answer, the relevance score of `simple_scores`
is the baseline 3, downgraded to 2 for answers shorter than
`short_answer_tokens`, then incremented by 1 (capped at 5) when at least
one depth keyword matches, the increment being applied after the length
downgrade; in particular a short answer with at least one keyword match
nets relevance 3, not 2. -/
theorem c3_relevance_increment_after_downgrade (answer : String) (r : Rubric)
    (h : (pyTrim answer.toList).isEmpty = false) :
    ((simple_scores answer r).relevance =
      if 1 ≤ (countMatches answer.toList r.depth_keywords : Int) then
        (if ((pyWords (pyTrim answer.toList)).length : Int) < r.short_answer_tokens
         then 3 else 4)
      else
        (if ((pyWords (pyTrim answer.toList)).length : Int) < r.short_answer_tokens
         then 2 else 3)) ∧
    (((pyWords (pyTrim answer.toList)).length : Int) < r.short_answer_tokens →
      1 ≤ (countMatches answer.toList r.depth_keywords : Int) →
      (simple_scores answer r).relevance = 3) := by
  rw [simple_scores_relevance answer r h, relevanceScore_cases]
  unfold clampScore
  constructor
  · split_ifs <;> decide
  · intro h1 h2
    split_ifs
    decide

/-- C3 witness: the answer "caching is key" is short (3 tokens, below the
default threshold 12) and matches the keyword "caching", so its relevance
is 3, not 2. -/
theorem c3_relevance_increment_after_downgrade_witness :
    (simple_scores "caching is key" baseRubric).relevance = 3 :=
  (c3_relevance_increment_after_downgrade "caching is key" baseRubric
    (by decide)).2 (by decide) (by decide)

/-- C9: for every non-empty answer and every rubric, the relevance score
of `simple_scores` is 2, 3 or 4 — never 1 and never 5, so the cap at 5 in
the relevance increment is unreachable on non-empty input. -/
theorem c9_relevance_range (answer : String) (r : Rubric)
    (h : (pyTrim answer.toList).isEmpty = false) :
    (simple_scores answer r).relevance = 2 ∨ (simple_scores answer r).relevance = 3 ∨
      (simple_scores answer r).relevance = 4 := by
  rw [simple_scores_relevance answer r h, relevanceScore_cases]
  unfold clampScore
  split_ifs <;> decide

/-- C9 witness: a concrete non-empty answer whose relevance lands in
{2, 3, 4}. -/
theorem c9_relevance_range_witness :
    (simple_scores "hello there friend" baseRubric).relevance = 2 ∨
      (simple_scores "hello there friend" baseRubric).relevance = 3 ∨
      (simple_scores "hello there friend" baseRubric).relevance = 4 :=
  c9_relevance_range "hello there friend" baseRubric (by decide)

/-- C7: holding the keyword-match count fixed, moving the token count from
below `short_answer_tokens` to at or above it never decreases the
communication score of `simple_scores`. -/
theorem c7_communication_monotone (r : Rubric) (a b : String)
    (ha : (pyTrim a.toList).isEmpty = false)
    (hb : (pyTrim b.toList).isEmpty = false)
    (_hm : countMatches a.toList r.depth_keywords = countMatches b.toList r.depth_keywords)
    (hshort : ((pyWords (pyTrim a.toList)).length : Int) < r.short_answer_tokens)
    (hlong : r.short_answer_tokens ≤ ((pyWords (pyTrim b.toList)).length : Int)) :
    (simple_scores a r).communication ≤ (simple_scores b r).communication := by
  rw [simple_scores_communication a r ha, simple_scores_communication b r hb]
  unfold commScore clampScore
  split_ifs <;> first | decide | omega

/-- C7 witness: a three-token answer versus a twelve-token answer, both
with zero keyword matches against the default rubric. -/
theorem c7_communication_monotone_witness :
    (simple_scores "short answer here" baseRubric).communication ≤
      (simple_scores "one two three four five six seven eight nine ten eleven twelve"
        baseRubric).communication :=
  c7_communication_monotone baseRubric "short answer here"
    "one two three four five six seven eight nine ten eleven twelve"
    (by decide) (by decide) (by decide) (by decide) (by decide)

/-- C6: the depth keyword-match count of `simple_scores` is
case-insensitive — it depends only on the lowercased answer — and counts
each configured keyword at most once regardless of how often that keyword
occurs in the answer; consequently the depth score itself is invariant
under changing the case of a non-empty answer. -/
theorem c6_keyword_match_counting :
    (∀ (a b : List Char) (kws : List String), pyLower a = pyLower b →
      countMatches a kws = countMatches b kws) ∧
    (∀ (a : List Char) (kws : List String), countMatches a kws ≤ kws.length) ∧
    (countMatches "We added caching, more caching, then extra caching".toList
      ["caching"] = 1) ∧
    (∀ (a b : String) (r : Rubric), pyLower a.toList = pyLower b.toList →
      (pyTrim a.toList).isEmpty = false → (pyTrim b.toList).isEmpty = false →
      (simple_scores a r).depth = (simple_scores b r).depth) := by
  refine ⟨?_, ?_, by decide, ?_⟩
  · intro a b kws h
    unfold countMatches
    rw [h]
  · intro a kws
    exact List.length_filter_le _ _
  · intro a b r h ha hb
    rw [simple_scores_depth a r ha, simple_scores_depth b r hb]
    unfold countMatches
    rw [h]

/-- C6 witness: case-insensitivity applied at a concrete pair of answers
differing only in case. -/
theorem c6_keyword_match_counting_witness :
    countMatches "CACHING helped a lot".toList ["caching"] =
      countMatches "caching HELPED a LOT".toList ["caching"] :=
  c6_keyword_match_counting.1 "CACHING helped a lot".toList
    "caching HELPED a LOT".toList ["caching"] (by decide)

/-! ## Claim theorems for `detect_agentic_case` and `is_end_command` -/

/-- C4: `detect_agentic_case` evaluates EMPTY, IDK, TOO_SHORT, CONFUSED,
CHATTY in strict priority order with the first match winning: "no idea"
resolves to IDK and not TOO_SHORT although it has fewer than 5 tokens;
every blank or whitespace-only input resolves to EMPTY; and any input
whose normalised form is an IDK variant resolves to IDK regardless of the
later checks. -/
theorem c4_persona_priority_order :
    (detect_agentic_case "no idea" = some PersonaCase.IDK ∧
      (pyWords (normAnswer "no idea")).length < 5) ∧
    (∀ s : String, pyTrim s.toList = [] →
      detect_agentic_case s = some PersonaCase.EMPTY) ∧
    (∀ s : String, normAnswer s ∈ idkVariants →
      detect_agentic_case s = some PersonaCase.IDK) := by
  refine ⟨⟨by decide, by decide⟩, ?_, ?_⟩
  · intro s hs
    unfold detect_agentic_case
    rw [if_pos]
    unfold normAnswer
    rw [hs]
    rfl
  · intro s hs
    have hne : normAnswer s ≠ [] := by
      intro h0
      rw [h0] at hs
      exact absurd hs (by decide)
    unfold detect_agentic_case
    rw [if_neg hne, if_pos hs]

/-- C4 witness: the EMPTY branch applied to a whitespace-only input and
the IDK branch applied to an upper-case variant with surrounding
whitespace. -/
theorem c4_persona_priority_order_witness :
    detect_agentic_case "   " = some PersonaCase.EMPTY ∧
      detect_agentic_case " No Idea " = some PersonaCase.IDK :=
  ⟨c4_persona_priority_order.2.1 "   " (by decide),
   c4_persona_priority_order.2.2 " No Idea " (by decide)⟩

/-- C10: the CHATTY check matches greeting phrases as character-level
prefixes of the normalised answer, not as whole words: every answer that
is non-blank, not an IDK variant, has at least 5 tokens, contains no
confusion-signalling substring and starts with the characters of some
greeting phrase is classified CHATTY — e.g. "history is important in five
words", which merely starts with the characters "hi". -/
theorem c10_chatty_prefix_matching :
    (∀ s : String,
      normAnswer s ≠ [] →
      normAnswer s ∉ idkVariants →
      5 ≤ (pyWords (normAnswer s)).length →
      confusedPhrases.any (fun p => containsSub p.toList (normAnswer s)) = false →
      chattyPhrases.any (fun p => p.toList.isPrefixOf (normAnswer s)) = true →
      detect_agentic_case s = some PersonaCase.CHATTY) ∧
    detect_agentic_case "history is important in five words" = some PersonaCase.CHATTY := by
  refine ⟨?_, by decide⟩
  intro s h1 h2 h3 h4 h5
  unfold detect_agentic_case
  rw [if_neg h1, if_neg h2, if_neg (by omega), if_neg (by rw [h4]; decide), if_pos]
  rw [List.any_eq_true] at h5 ⊢
  obtain ⟨p, hp, hpre⟩ := h5
  refine ⟨p, hp, ?_⟩
  simp only [Bool.or_eq_true]
  left
  exact hpre

/-- C10 witness: the general CHATTY-prefix theorem applied to the answer
"history is important in five words". -/
theorem c10_chatty_prefix_matching_witness :
    detect_agentic_case "history is important in five words" = some PersonaCase.CHATTY :=
  c10_chatty_prefix_matching.1 "history is important in five words"
    (by decide) (by decide) (by decide) (by decide) (by decide)

/-- The end-command test as the claim words it: exact normalised match
against the phrase set, also matching after stripping TRAILING punctuation
only.  This definition follows the claim text, to be compared with the
source-derived `is_end_command`. -/
def endCommandTrailingOnly (answer : String) : Bool :=
  if answer.isEmpty then false
  else if normAnswer answer ∈ endPhrases then true
  else if ((normAnswer answer).reverse.dropWhile isPunctChar).reverse ∈ endPhrases then true
  else false

/-- C5 counterexample: the claim describes `is_end_command` as matching
the phrase set exactly or after stripping trailing punctuation, but the
source strips punctuation from BOTH ends (`text.strip(".!?,")`): on
"!quit" the code returns true while the trailing-only description returns
false. -/
theorem c5_trailing_only_counterexample :
    is_end_command "!quit" = true ∧ endCommandTrailingOnly "!quit" = false := by
  decide

/-- C5 amended: `is_end_command` performs a case-insensitive,
whitespace-trimmed exact match against the fixed phrase set, also matching
after stripping LEADING AND TRAILING punctuation from the set
{., !, ?, ,}; `is_end_command "QUIT!"` is true, `is_end_command
"quitting"` is false, and empty or whitespace-only text is never an end
command. -/
theorem c5_end_command_characterization :
    (∀ s : String, is_end_command s = true ↔
      (¬ s.isEmpty = true ∧
        (normAnswer s ∈ endPhrases ∨
          pyStripBoth isPunctChar (normAnswer s) ∈ endPhrases))) ∧
    is_end_command "QUIT!" = true ∧
    is_end_command "quitting" = false ∧
    is_end_command "" = false ∧
    is_end_command "   " = false := by
  refine ⟨?_, by decide, by decide, by decide, by decide⟩
  intro s
  unfold is_end_command
  by_cases h0 : s.isEmpty = true
  · simp [h0]
  · rw [if_neg h0]
    by_cases h1 : normAnswer s ∈ endPhrases
    · simp [h0, h1]
    · rw [if_neg h1]
      by_cases h2 : pyStripBoth isPunctChar (normAnswer s) ∈ endPhrases
      · simp [h0, h1, h2]
      · simp [h0, h1, h2]

/-- C5 witness: the amended characterization applied at "end.", which the
code accepts after punctuation stripping. -/
theorem c5_end_command_characterization_witness :
    is_end_command "end." = true :=
  (c5_end_command_characterization.1 "end.").mpr (by decide)

/-! ## Claim theorems for the turn state machine -/

/-- C1: on the normal path (not an end command, no persona case) the code
does NOT fall back to the deterministic engine: when the generation
collaborator is unavailable or its call fails, `process_answer` raises
(returns an error) even though the deterministic fallback
`scores_to_feedback (simple_scores ...)` is available and well defined on
the same answer.  This exhibits the divergence between the code and the
fallback behaviour promised by the spec and by the documentation inside
the repository itself. -/
theorem c1_no_fallback_on_feedback_failure :
    (process_answer false (Except.error "connection refused") (Except.error "connection refused")
        (initState "software_engineer")
        "I would index the users table to speed up lookups"
        "How would you speed up a slow query?").1 =
      Except.error
        "Groq API is required for feedback generation. Please set GROQ_API_KEY in your .env file." ∧
    (process_answer true (Except.error "connection refused")
        (Except.ok "Can you give a simple example of an index?")
        (initState "software_engineer")
        "I would index the users table to speed up lookups"
        "How would you speed up a slow query?").1 =
      Except.error "Failed to generate AI feedback: connection refused" ∧
    is_end_command "I would index the users table to speed up lookups" = false ∧
    detect_agentic_case "I would index the users table to speed up lookups" = none ∧
    scores_to_feedback
        (simple_scores "I would index the users table to speed up lookups" baseRubric)
        baseRubric =
      ["Try structuring answers with STAR (Situation, Task, Action, Result).",
       "Add concrete technical details: components, trade-offs, and numbers.",
       "Keep answers focused on the asked problem; brief examples are fine."] := by
  exact ⟨rfl, rfl, by decide, by decide, by decide⟩

/-! ## Helper lemmas about follow-up counting and history -/

set_option maxHeartbeats 1000000 in
lemma generate_ai_followup_cases (en : Bool) (g : Except String String)
    (s : AgentState) (qt ans : String) :
    ((generate_ai_followup en g s qt ans).1 = none ∧
      (generate_ai_followup en g s qt ans).2 = s) ∨
    (∃ fu, (generate_ai_followup en g s qt ans).1 = some fu ∧
      (generate_ai_followup en g s qt ans).2 = recordFollowup s fu ∧
      fu ≠ "" ∧ s.followup_count < 2) := by
  unfold generate_ai_followup
  split
  · exact Or.inl ⟨rfl, rfl⟩
  · split
    · exact Or.inl ⟨rfl, rfl⟩
    · split
      · exact Or.inl ⟨rfl, rfl⟩
      · split
        · rename_i raw hcond
          refine Or.inr ⟨String.mk (stripFollowupLabels (pyTrim raw.toList)),
            rfl, rfl, fun hq => hcond.1 (congrArg String.data hq), by omega⟩
        · exact Or.inl ⟨rfl, rfl⟩

lemma get_next_question_cases (en : Bool) (g : Except String String) (s : AgentState) :
    ((∃ e, (get_next_question en g s).1 = Except.error e) ∧
      (get_next_question en g s).2 = s) ∨
    ((get_next_question en g s).1 = Except.ok none ∧
      (get_next_question en g s).2 = s) ∨
    (∃ q, (get_next_question en g s).1 = Except.ok (some q) ∧
      (get_next_question en g s).2 = recordMainQuestion s q ∧ q ≠ "") := by
  unfold get_next_question
  split
  · exact Or.inl ⟨⟨_, rfl⟩, rfl⟩
  · split
    · exact Or.inl ⟨⟨_, rfl⟩, rfl⟩
    · split
      · rename_i hraw hcond
        exact Or.inr (Or.inr
          ⟨_, rfl, rfl, fun hq => hcond (congrArg String.data hq)⟩)
      · exact Or.inr (Or.inl ⟨rfl, rfl⟩)

lemma process_answer_count (en : Bool) (gf gu : Except String String)
    (s : AgentState) (ans qt : String) :
    (process_answer en gf gu s ans qt).2.followup_count = s.followup_count ∨
    ((process_answer en gf gu s ans qt).2.followup_count = s.followup_count + 1 ∧
      s.followup_count < 2) := by
  unfold process_answer
  split
  · exact Or.inl rfl
  · split
    · exact Or.inl rfl
    · split
      · exact Or.inl rfl
      · rcases generate_ai_followup_cases en gu (appendHistory s ⟨"candidate", ans⟩)
          qt ans with ⟨_, h2⟩ | ⟨fu, _, h2, _, h3⟩
        · rw [h2]
          exact Or.inl rfl
        · rw [h2]
          exact Or.inr ⟨rfl, h3⟩

lemma stepState_followup_le (s : AgentState) (op : Op)
    (h : s.followup_count ≤ 2) : (stepState s op).followup_count ≤ 2 := by
  cases op with
  | answerOp en gf gu ans qt =>
    show (process_answer en gf gu s ans qt).2.followup_count ≤ 2
    rcases process_answer_count en gf gu s ans qt with h1 | ⟨h1, h2⟩ <;> rw [h1] <;> omega
  | nextQuestionOp en g =>
    show (get_next_question en g s).2.followup_count ≤ 2
    rcases get_next_question_cases en g s with ⟨_, h1⟩ | ⟨_, h1⟩ | ⟨q, _, h1, _⟩ <;> rw [h1]
    · exact h
    · exact h
    · exact Nat.zero_le 2

lemma foldl_stepState_followup_le (ops : List Op) (s : AgentState)
    (h : s.followup_count ≤ 2) :
    (List.foldl stepState s ops).followup_count ≤ 2 := by
  induction ops generalizing s with
  | nil => exact h
  | cons op rest ih =>
    exact ih (stepState s op) (stepState_followup_le s op h)

/-- C2: over every sequence of `process_answer` / `get_next_question`
calls on a fresh session, `followup_count` never exceeds 2; it is reset to
0 whenever `get_next_question` successfully produces a new main question,
and no operation other than a successful main-question production ever
decreases it. -/
theorem c2_followup_count_invariant :
    (∀ (role : String) (ops : List Op),
      (List.foldl stepState (initState role) ops).followup_count ≤ 2) ∧
    (∀ (s : AgentState) (op : Op), producesMainQuestion s op →
      (stepState s op).followup_count = 0) ∧
    (∀ (s : AgentState) (op : Op), ¬ producesMainQuestion s op →
      s.followup_count ≤ (stepState s op).followup_count) := by
  refine ⟨?_, ?_, ?_⟩
  · intro role ops
    exact foldl_stepState_followup_le ops (initState role) (Nat.zero_le 2)
  · intro s op hp
    cases op with
    | answerOp en gf gu ans qt => exact absurd hp (fun h => h)
    | nextQuestionOp en g =>
      obtain ⟨q, hq⟩ := hp
      rcases get_next_question_cases en g s with ⟨⟨e, h1⟩, _⟩ | ⟨h1, _⟩ | ⟨p, h1, h2, _⟩
      · rw [hq] at h1
        exact Except.noConfusion h1
      · rw [hq] at h1
        injection h1 with h3
        exact Option.noConfusion h3
      · show (get_next_question en g s).2.followup_count = 0
        rw [h2]
        rfl
  · intro s op hp
    cases op with
    | answerOp en gf gu ans qt =>
      show s.followup_count ≤ (process_answer en gf gu s ans qt).2.followup_count
      rcases process_answer_count en gf gu s ans qt with h1 | ⟨h1, _⟩ <;> rw [h1]
      omega
    | nextQuestionOp en g =>
      show s.followup_count ≤ (get_next_question en g s).2.followup_count
      rcases get_next_question_cases en g s with ⟨_, h1⟩ | ⟨_, h1⟩ | ⟨q, hq, _, _⟩
      · rw [h1]
      · rw [h1]
      · exact absurd ⟨q, hq⟩ hp

/-- C2 witness: a concrete two-operation session stays within the bound,
and a concrete successful `get_next_question` resets the counter to 0. -/
theorem c2_followup_count_invariant_witness :
    (List.foldl stepState (initState "software_engineer")
      [Op.answerOp true (Except.ok "Good structure — now add a concrete example.")
        (Except.ok "Can you give a simple example of an index?")
        "I would index the users table to speed up lookups" "Q1",
       Op.nextQuestionOp true (Except.ok "What is a hash table?")]).followup_count ≤ 2 ∧
    (stepState (initState "software_engineer")
      (Op.nextQuestionOp true (Except.ok "What is a hash table?"))).followup_count = 0 :=
  ⟨c2_followup_count_invariant.1 "software_engineer"
    [Op.answerOp true (Except.ok "Good structure — now add a concrete example.")
      (Except.ok "Can you give a simple example of an index?")
      "I would index the users table to speed up lookups" "Q1",
     Op.nextQuestionOp true (Except.ok "What is a hash table?")],
   c2_followup_count_invariant.2.1 (initState "software_engineer")
    (Op.nextQuestionOp true (Except.ok "What is a hash table?"))
    ⟨"What is a hash table?", rfl⟩⟩

/-- C8: a failed generation attempt never corrupts session history.  When
`get_next_question` errors or yields no question, and when follow-up
generation yields no follow-up (collaborator disabled, budget exhausted,
call raised, or blank/short text), the history is exactly what it was
before the attempt; on success exactly the returned non-empty text is
appended as one interviewer entry. -/
theorem c8_failed_generation_preserves_history :
    (∀ (en : Bool) (g : Except String String) (s : AgentState) (e : String),
      (get_next_question en g s).1 = Except.error e →
      (get_next_question en g s).2.history = s.history) ∧
    (∀ (en : Bool) (g : Except String String) (s : AgentState),
      (get_next_question en g s).1 = Except.ok none →
      (get_next_question en g s).2.history = s.history) ∧
    (∀ (en : Bool) (g : Except String String) (s : AgentState) (q : String),
      (get_next_question en g s).1 = Except.ok (some q) →
      (get_next_question en g s).2.history = s.history ++ [⟨"interviewer", q⟩] ∧
        q ≠ "") ∧
    (∀ (en : Bool) (g : Except String String) (s : AgentState) (qt ans : String),
      (generate_ai_followup en g s qt ans).1 = none →
      (generate_ai_followup en g s qt ans).2.history = s.history) ∧
    (∀ (en : Bool) (g : Except String String) (s : AgentState) (qt ans fu : String),
      (generate_ai_followup en g s qt ans).1 = some fu →
      (generate_ai_followup en g s qt ans).2.history =
        s.history ++ [⟨"interviewer", fu⟩] ∧ fu ≠ "") := by
  refine ⟨?_, ?_, ?_, ?_, ?_⟩
  · intro en g s e h
    rcases get_next_question_cases en g s with ⟨_, h1⟩ | ⟨_, h1⟩ | ⟨q, hq, _, _⟩
    · rw [h1]
    · rw [h1]
    · rw [h] at hq
      exact Except.noConfusion hq
  · intro en g s h
    rcases get_next_question_cases en g s with ⟨⟨e, h1⟩, h2⟩ | ⟨_, h2⟩ | ⟨q, hq, _, _⟩
    · rw [h] at h1
      exact Except.noConfusion h1
    · rw [h2]
    · rw [h] at hq
      injection hq with h3
      exact Option.noConfusion h3
  · intro en g s q h
    rcases get_next_question_cases en g s with ⟨⟨e, h1⟩, _⟩ | ⟨h1, _⟩ | ⟨p, hp, h2, h3⟩
    · rw [h] at h1
      exact Except.noConfusion h1
    · rw [h] at h1
      injection h1 with h4
      exact Option.noConfusion h4
    · rw [h] at hp
      injection hp with h4
      injection h4 with h5
      subst h5
      rw [h2]
      exact ⟨rfl, h3⟩
  · intro en g s qt ans h
    rcases generate_ai_followup_cases en g s qt ans with ⟨_, h1⟩ | ⟨fu, hfu, _, _⟩
    · rw [h1]
    · rw [h] at hfu
      exact Option.noConfusion hfu
  · intro en g s qt ans fu h
    rcases generate_ai_followup_cases en g s qt ans with ⟨h1, _⟩ | ⟨p, hp, h2, h3, _⟩
    · rw [h] at h1
      exact Option.noConfusion h1
    · rw [h] at hp
      injection hp with h4
      subst h4
      rw [h2]
      exact ⟨rfl, h3⟩

/-- C8 witness: a raised generation call leaves the history of a fresh
session untouched, both for `get_next_question` and for follow-up
generation. -/
theorem c8_failed_generation_preserves_history_witness :
    (get_next_question true (Except.error "timeout") (initState "sales")).2.history =
      (initState "sales").history ∧
    (generate_ai_followup true (Except.error "timeout") (initState "sales")
      "Q" "A").2.history = (initState "sales").history :=
  ⟨c8_failed_generation_preserves_history.1 true (Except.error "timeout")
    (initState "sales") "Failed to generate question: timeout" rfl,
   c8_failed_generation_preserves_history.2.2.2.1 true (Except.error "timeout")
    (initState "sales") "Q" "A" rfl⟩

end InterviewPractice
